import Mathlib

/-!
Verification of the self-healing core of the AthenAI repository.

This file is a shallow embedding of src/api/services/self_healing.py:
python floats are modelled as rationals, python dicts as insertion-ordered
association lists, fallible collaborator calls as explicit parameters, and
the in-place mutation of the selector state as explicit state passing.
Line numbers in the doc comments refer to self_healing.py.
-/

/-- Anomaly dataclass (lines 20-27). -/
structure Anomaly where
  metric : String
  value : ℚ
  baseline : ℚ
  zscore : ℚ
  severity : String
  hint : String
deriving Repr, DecidableEq

/-- Diagnosis dataclass (lines 30-36). -/
structure Diagnosis where
  issue_type : String
  root_cause : String
  confidence : ℚ
  impacted_components : List String
  recommended_strategies : List String
deriving Repr, DecidableEq

/-- One action dict of a strategy (the values are strings or numbers). -/
inductive ActionVal where
  | str (s : String)
  | num (q : ℚ)
deriving Repr, DecidableEq

/-- A python action dict such as the pair list for type docker.restart. -/
abbrev ActionDict := List (String × ActionVal)

/-- HealingStrategy dataclass (lines 39-45). -/
structure HealingStrategy where
  name : String
  description : String
  safety_level : String
  cost : ℚ
  actions : List ActionDict
deriving Repr, DecidableEq

/-- State of AnomalyDetector: the per-metric baselines dict mapping a
metric name to (mean, stdev) (line 51). -/
abbrev Baselines := List (String × (ℚ × ℚ))

/-- Dict lookup self.baselines.get(k) : first entry with the key. -/
def lookupBaseline (bs : Baselines) (k : String) : Option (ℚ × ℚ) :=
  (bs.find? (fun p => p.1 == k)).map Prod.snd

/-- Baseline used for metric k at current value v (line 63): the stored
baseline, or the cold-start default (mean = v, stdev = max 1e-6 (|v|*0.05)). -/
def baselineFor (bs : Baselines) (k : String) (v : ℚ) : ℚ × ℚ :=
  match lookupBaseline bs k with
  | some p => p
  | none => (v, max (1/1000000) (|v| * (5/100)))

/-- Python idiom `sd or 1e-6` (line 64): the default replaces a zero value. -/
def orDefault (sd d : ℚ) : ℚ := if sd = 0 then d else sd

/-- Z-score (line 64): 0 when stdev is 0, else (v - mean) / (stdev or 1e-6). -/
def zscoreOf (v mu sd : ℚ) : ℚ :=
  if sd = 0 then 0 else (v - mu) / orDefault sd (1/1000000)

/-- Severity classification (lines 65-69): low, overridden to high when
abs z exceeds 3, else to medium when abs z exceeds 2. -/
def severityOf (z : ℚ) : String :=
  if 3 < |z| then "high" else if 2 < |z| then "medium" else "low"

/-- Body of the detect loop for one metric entry (lines 62-72): returns the
emitted Anomaly when abs z is at least 2, none otherwise. -/
def detectOne (bs : Baselines) (k : String) (v : ℚ) : Option Anomaly :=
  if 2 ≤ |zscoreOf v (baselineFor bs k v).1 (baselineFor bs k v).2| then
    some ⟨k, v, (baselineFor bs k v).1,
          zscoreOf v (baselineFor bs k v).1 (baselineFor bs k v).2,
          severityOf (zscoreOf v (baselineFor bs k v).1 (baselineFor bs k v).2),
          if (baselineFor bs k v).1 < v then "above" else "below"⟩
  else none

/-- AnomalyDetector.detect (lines 60-73): the findings list accumulated over
the metrics dict in insertion order. -/
def AnomalyDetector.detect (bs : Baselines) (metrics : List (String × ℚ)) :
    List Anomaly :=
  metrics.filterMap (fun p => detectOne bs p.1 p.2)

/-- The context dict as read by diagnose, execute and heal: the code reads
context.get("services", []), context.get("queues", []),
context.get("containers", []) and context.get("user"); absent keys behave
as the defaults, which is what the fields hold. -/
structure Ctx where
  services : List String
  queues : List String
  containers : List String
  user : Option String
deriving Repr, DecidableEq

/-- The metric-indexed dict m built on line 85: a dict comprehension keeps
the last anomaly for each metric name, so m.get(k) is the last anomaly in
the list whose metric is k. -/
def metricMap (anomalies : List Anomaly) (k : String) : Option Anomaly :=
  anomalies.reverse.find? (fun a => a.metric == k)

/-- Truthiness-and-zscore test such as `lat and lat.zscore > 2` used by the
rules of diagnose (lines 98, 104, 110). -/
def zAbove (o : Option Anomaly) (t : ℚ) : Bool :=
  match o with
  | some a => decide (t < a.zscore)
  | none => false

/-- DiagnosisEngine.diagnose (lines 77-117): five first-match heuristic
rules over the metric-indexed anomalies. -/
def DiagnosisEngine.diagnose (anomalies : List Anomaly) (ctx : Ctx) :
    Diagnosis :=
  if (metricMap anomalies "error_rate").isSome &&
     ((metricMap anomalies "cpu_load").isSome ||
      (metricMap anomalies "memory_usage").isSome) then
    ⟨"degradation", "elevated error rate under resource pressure", 3/4,
     ctx.services, ["scale_service", "restart_unhealthy", "throttle_traffic"]⟩
  else if zAbove (metricMap anomalies "latency_p95") 2 &&
          zAbove (metricMap anomalies "queue_depth") 2 then
    ⟨"backpressure", "queue growth causing latency", 7/10,
     ctx.queues, ["increase_workers", "rebalance_load", "purge_stuck"]⟩
  else if zAbove (metricMap anomalies "cpu_load") 3 then
    ⟨"resource_hotspot", "sustained high CPU", 13/20,
     ctx.services, ["scale_service", "restart_unhealthy"]⟩
  else if zAbove (metricMap anomalies "memory_usage") 3 then
    ⟨"memory_pressure", "sustained high memory", 13/20,
     ctx.services, ["restart_unhealthy", "recycle_container"]⟩
  else
    ⟨"unknown", "insufficient data", 1/2, [], []⟩

/-- StrategyLibrary.list (lines 121-165): the fixed six-entry catalog. -/
def StrategyLibrary.list : List HealingStrategy :=
  [⟨"restart_unhealthy", "Restart unhealthy containers/services", "high", 1/5,
     [[("type", ActionVal.str "docker.restart"), ("target", ActionVal.str "service")]]⟩,
   ⟨"scale_service", "Increase service replicas to handle load", "medium", 2/5,
     [[("type", ActionVal.str "scale"), ("target", ActionVal.str "service"),
       ("delta", ActionVal.num 1)]]⟩,
   ⟨"rebalance_load", "Rebalance work across nodes", "high", 3/10,
     [[("type", ActionVal.str "rebalance")]]⟩,
   ⟨"throttle_traffic", "Apply rate limits to reduce pressure", "low", 1/10,
     [[("type", ActionVal.str "rate_limit"), ("amount", ActionVal.num (4/5))]]⟩,
   ⟨"purge_stuck", "Remove stuck items from queues", "medium", 1/5,
     [[("type", ActionVal.str "queue.purge")]]⟩,
   ⟨"recycle_container", "Stop and start a container to clear state", "medium", 3/10,
     [[("type", ActionVal.str "docker.recycle")]]⟩]

/-- StrategyLibrary.get (lines 167-171): first catalog entry with the name. -/
def StrategyLibrary.get (name : String) : Option HealingStrategy :=
  StrategyLibrary.list.find? (fun s => s.name == name)

/-- State of StrategySelector (line 177): the scores dict, one insertion-
ordered entry per strategy name holding (success, attempts). The python
dict stores floats, but both counters start at 0.0 and only ever grow by
increments of exactly 1, so every reachable value is a natural number and
the embedding stores the counters as naturals. -/
abbrev Scores := List (String × (ℕ × ℕ))

/-- Dict lookup self.scores.get(name): first entry with the key. -/
def lookupScore (scores : Scores) (name : String) : Option (ℕ × ℕ) :=
  (scores.find? (fun p => p.1 == name)).map Prod.snd

/-- StrategySelector.record_outcome (lines 179-183): setdefault a zero
record for an unseen name, then increment attempts, and success only when
the outcome succeeded. On an assoc list this updates the first entry with
the name in place, or appends the fresh record at the end. -/
def StrategySelector.record_outcome (scores : Scores) (name : String)
    (success : Bool) : Scores :=
  match scores with
  | [] => [(name, ((if success then 1 else 0), 1))]
  | p :: rest =>
      if p.1 = name then
        (p.1, (p.2.1 + (if success then 1 else 0), p.2.2 + 1)) :: rest
      else
        p :: StrategySelector.record_outcome rest name success

/-- The inner score function of best (lines 189-193): 0.5 when there is no
record or attempts is 0, else success / max 1 attempts. -/
def scoreOf (scores : Scores) (name : String) : ℚ :=
  match lookupScore scores name with
  | none => 1/2
  | some r => if r.2 = 0 then 1/2 else (r.1 : ℚ) / max 1 (r.2 : ℚ)

/-- Python max(candidates, key=score) keeps the running best and replaces
it only when a later element scores strictly higher, hence returns the
first element attaining the maximum. -/
def pickMax (scores : Scores) (acc : String) (l : List String) : String :=
  l.foldl (fun a x => if scoreOf scores a < scoreOf scores x then x else a) acc

/-- StrategySelector.best (lines 185-194): none on an empty candidate list,
else the stable maximum of the score function. -/
def StrategySelector.best (scores : Scores) (candidates : List String) :
    Option String :=
  match candidates with
  | [] => none
  | c :: cs => some (pickMax scores c cs)

/-- The plan dict built on line 205. -/
structure Plan where
  strategy : String
  actions : List ActionDict
  dry_run : Bool
deriving Repr, DecidableEq

/-- One entry of applied_actions (lines 209-227): the simulated success
dict, the docker-path success dict with its targets, or the captured
per-action error dict. -/
inductive ActionRes where
  | okSim (typ : String)
  | dockerDone (typ : String) (targets : List String)
  | dockerErr (typ : String) (err : String)
deriving Repr, DecidableEq

/-- The three result dict shapes execute can return (lines 204, 207, 228). -/
inductive ExecResult where
  | unknownStrategy
  | dryRunPlan (plan : Plan)
  | appliedRes (strategy : String) (actions : List ActionRes)
deriving Repr, DecidableEq

/-- Python bool(outcome.get("applied")) (lines 236, 284): true exactly for
the applied result dict. -/
def ExecResult.applied : ExecResult → Bool
  | .appliedRes _ _ => true
  | _ => false

/-- One call made to the container-control collaborator: an operation name
(restart, stop or start) and a container id. -/
structure ContainerCall where
  op : String
  container : String
deriving Repr, DecidableEq

/-- External container-control collaborator (the docker client, lines 8-13
and 212-224). available models the module flag set by the import attempt;
runActions gives, for a docker action type and the container id list from
the context, the container calls the client actually performed followed by
the exception message when the try block raised (none when it returned). -/
structure DockerEnv where
  available : Bool
  runActions : String → List String → (List ContainerCall × Option String)

/-- Reading of act.get("type") (line 211). Every action dict in the catalog
carries a string type, so the fallback is never reached from execute. -/
def actionType (a : ActionDict) : String :=
  match (a.find? (fun p => p.1 == "type")).map Prod.snd with
  | some (ActionVal.str t) => t
  | _ => ""

/-- One iteration of the action loop of execute (lines 210-227): the docker
path runs when the type starts with docker. and the client is available,
appending either the targets dict or the captured error dict; every other
action simulates success. -/
def execAction (env : DockerEnv) (containers : List String) (a : ActionDict) :
    ActionRes × List ContainerCall :=
  if (actionType a).startsWith "docker." && env.available then
    match env.runActions (actionType a) containers with
    | (calls, none) => (ActionRes.dockerDone (actionType a) containers, calls)
    | (calls, some e) => (ActionRes.dockerErr (actionType a) e, calls)
  else
    (ActionRes.okSim (actionType a), [])

/-- RecoveryExecutor.execute (lines 201-228), returning the result dict
together with every container call made, so that the theorems can speak
about the container-control path not being reached. -/
def RecoveryExecutor.execute (env : DockerEnv) (strategy_name : String)
    (ctx : Ctx) (dry_run : Bool) : ExecResult × List ContainerCall :=
  match StrategyLibrary.get strategy_name with
  | none => (ExecResult.unknownStrategy, [])
  | some strat =>
      if dry_run then
        (ExecResult.dryRunPlan ⟨strat.name, strat.actions, dry_run⟩, [])
      else
        (ExecResult.appliedRes strat.name
          (strat.actions.map (fun a => (execAction env ctx.containers a).1)),
         strat.actions.foldl
           (fun acc a => acc ++ (execAction env ctx.containers a).2) [])

/-- LearningEngine.update (lines 235-236): record the outcome with
success = bool(outcome.get("applied")). -/
def LearningEngine.update (scores : Scores) (strategy : String)
    (outcome : ExecResult) : Scores :=
  StrategySelector.record_outcome scores strategy outcome.applied

/-- HealingAttempt node created by the Cypher write (lines 269-288); the id
and timestamp are generated inside the database and are not part of the
parameters the core supplies. -/
structure HealingAttempt where
  strategy : String
  dryRun : Bool
  applied : Bool
  issueType : String
  rootCause : String
deriving Repr, DecidableEq

/-- The payload dict heal returns (line 291). -/
structure HealPayload where
  strategy : String
  outcome : ExecResult
  issue : Diagnosis
deriving Repr, DecidableEq

/-- The two shapes heal can return: the early no_strategy dict (line 264)
or the payload (line 294). -/
inductive HealResult where
  | noStrategy
  | payload (p : HealPayload)
deriving Repr, DecidableEq

/-- Modelled from the spec: publish_exchange, imported on line 16 from
..utils.rabbitmq, is not defined in the sources available (rabbitmq.py has
only publish_task and start_consumer); spec section 6 describes the event
bus collaborator as a best-effort publish that never fails the caller. It
is represented as the event record it emits, with no control-flow effect. -/
def publish_exchange (exchange : String) (routing_key : String)
    (payload : HealPayload) : String × String × HealPayload :=
  (exchange, routing_key, payload)

/-- Modelled from the spec: audit_event, imported on line 15 from
..utils.audit, a module absent from the sources; spec section 6 describes
the audit sink as fire-and-forget, it must not fail the caller. It is
represented as the audit record it emits, with no control-flow effect. -/
def audit_event (name : String) (payload : HealPayload)
    (actor : Option String) : String × HealPayload × Option String :=
  (name, payload, actor)

/-- Collaborator environment of heal: the docker client for execute, and
whether the Neo4j write client.run_query (neo4j_client.py, no exception
handling of its own) raises, with the exception message when it does. -/
structure HealEnv where
  docker : DockerEnv
  persistError : Option String

/-- Everything one heal call produces: the returned value (or the
propagated exception), the selector state after the call, the attempt
records written, the container calls made, and the events handed to the
publish and audit collaborators. -/
structure HealOutcome where
  result : Except String HealResult
  scores : Scores
  persisted : List HealingAttempt
  containerCalls : List ContainerCall
  published : List (String × String × HealPayload)
  audited : List (String × HealPayload × Option String)

/-- Line 260: the diagnosis carried by the issue dict when present, else
the one synthesized by diagnose([], context). A malformed diagnosis
payload raises in the dataclass constructor before any of this code runs
(spec section 7 taxonomy c) and is outside this embedding. -/
def healDiag (issue : Option Diagnosis) (ctx : Ctx) : Diagnosis :=
  match issue with
  | some d => d
  | none => DiagnosisEngine.diagnose [] ctx

/-- Line 261: candidates = strategy and [strategy] or recommended. An
override that is the empty string is falsy in python, so it falls through
to the recommended strategies exactly like a missing override. -/
def healCandidates (diag : Diagnosis) (strategy : Option String) :
    List String :=
  match strategy with
  | some s => if s = "" then diag.recommended_strategies else [s]
  | none => diag.recommended_strategies

/-- Lines 262-263: chosen = best or (candidates[0] if candidates else None)
followed by the `if not chosen` truthiness check; none means heal returns
the no_strategy dict. A best result that is the empty string is falsy and
falls back to candidates[0]; a chosen that is the empty string is falsy
and yields no_strategy. -/
def chosenStrategy (scores : Scores) (candidates : List String) :
    Option String :=
  match
    (match StrategySelector.best scores candidates with
     | some c => if c = "" then candidates.head? else some c
     | none => candidates.head?) with
  | some c => if c = "" then none else some c
  | none => none

/-- SelfHealingService.heal (lines 258-294). The persistence write has no
exception handling around it, so when run_query raises the exception
propagates out of heal: nothing is recorded as written, the learning
update (which follows the write) never runs, and no event is emitted. -/
def SelfHealingService.heal (env : HealEnv) (scores : Scores)
    (issue : Option Diagnosis) (ctx : Ctx) (dry_run : Bool)
    (strategy : Option String) : HealOutcome :=
  match chosenStrategy scores (healCandidates (healDiag issue ctx) strategy) with
  | none => ⟨Except.ok HealResult.noStrategy, scores, [], [], [], []⟩
  | some c =>
      match env.persistError with
      | some e =>
          ⟨Except.error e, scores, [],
           (RecoveryExecutor.execute env.docker c ctx dry_run).2, [], []⟩
      | none =>
          ⟨Except.ok (HealResult.payload
             ⟨c, (RecoveryExecutor.execute env.docker c ctx dry_run).1,
              healDiag issue ctx⟩),
           LearningEngine.update scores c
             (RecoveryExecutor.execute env.docker c ctx dry_run).1,
           [⟨c, dry_run,
             ((RecoveryExecutor.execute env.docker c ctx dry_run).1).applied,
             (healDiag issue ctx).issue_type, (healDiag issue ctx).root_cause⟩],
           (RecoveryExecutor.execute env.docker c ctx dry_run).2,
           [publish_exchange "ops.selfhealing" "heal"
             ⟨c, (RecoveryExecutor.execute env.docker c ctx dry_run).1,
              healDiag issue ctx⟩],
           [audit_event "self_healing.heal"
             ⟨c, (RecoveryExecutor.execute env.docker c ctx dry_run).1,
              healDiag issue ctx⟩ ctx.user]⟩

/-- The StrategyScore invariant of spec section 3: attempts at least
successes (both counters are naturals here, so nonnegativity is carried by
the type). -/
def scoresWF (scores : Scores) : Prop :=
  ∀ p ∈ scores, p.2.1 ≤ p.2.2

/-- A whole history of record_outcome calls run from the initial empty
scores dict (line 177). -/
def runOutcomes (ops : List (String × Bool)) : Scores :=
  ops.foldl (fun s p => StrategySelector.record_outcome s p.1 p.2) []

/-- Repeated dry-run heal calls on the same strategy override, threading
the selector state. -/
def iterateDryHeal (env : HealEnv) (k : ℕ) (scores : Scores) (name : String)
    (ctx : Ctx) : Scores :=
  match k with
  | 0 => scores
  | Nat.succ j =>
      iterateDryHeal env j
        (SelfHealingService.heal env scores none ctx true (some name)).scores
        name ctx

/-! Helper lemmas. -/

/-- Z-score of a value against a baseline whose mean is the value itself. -/
theorem zscoreOf_self (v sd : ℚ) : zscoreOf v v sd = 0 := by
  unfold zscoreOf
  split
  · rfl
  · simp [sub_self]

/-- The cold-start synthesized stdev is never zero. -/
theorem coldStdev_pos (v : ℚ) : 0 < max (1/1000000) (|v| * (5/100)) :=
  lt_max_of_lt_left (by norm_num)

/-- Membership of an anomaly in the detect output comes from one metric
entry whose detectOne fires. -/
theorem mem_detect (bs : Baselines) (metrics : List (String × ℚ))
    (a : Anomaly) :
    a ∈ AnomalyDetector.detect bs metrics ↔
      ∃ p ∈ metrics, detectOne bs p.1 p.2 = some a := by
  unfold AnomalyDetector.detect
  simp [List.mem_filterMap]

/-! Claim theorems: anomaly detection (C1, C8). -/

/-- Claim C8 (confirmed): for a metric with no stored baseline, detect
synthesizes the cold-start baseline (mean = value, stdev = max 1e-6 of
five percent of the absolute value), which makes the z-score 0, so a
first-ever reading never produces an anomaly; in particular detect of
x = 100 on a fresh detector returns the empty list. -/
theorem C8_cold_start (bs : Baselines) (k : String) (v : ℚ)
    (h : lookupBaseline bs k = none) :
    baselineFor bs k v = (v, max (1/1000000) (|v| * (5/100))) ∧
    zscoreOf v (baselineFor bs k v).1 (baselineFor bs k v).2 = 0 ∧
    detectOne bs k v = none ∧
    AnomalyDetector.detect [] [("x", 100)] = [] := by
  have hb : baselineFor bs k v = (v, max (1/1000000) (|v| * (5/100))) := by
    simp [baselineFor, h]
  have hz : zscoreOf v (baselineFor bs k v).1 (baselineFor bs k v).2 = 0 := by
    rw [hb]; exact zscoreOf_self _ _
  have hone : detectOne bs k v = none := by
    unfold detectOne
    rw [hz]
    norm_num
  have h100 : detectOne [] "x" 100 = none := by
    have h0 : lookupBaseline [] "x" = none := rfl
    have hb0 : baselineFor [] "x" 100 =
        (100, max (1/1000000) (|(100:ℚ)| * (5/100))) := by
      simp [baselineFor, h0]
    have hz0 : zscoreOf 100 (baselineFor [] "x" 100).1
        (baselineFor [] "x" 100).2 = 0 := by
      rw [hb0]; exact zscoreOf_self _ _
    unfold detectOne
    rw [hz0]
    norm_num
  exact ⟨hb, hz, hone, by simp [AnomalyDetector.detect, h100]⟩

/-- Witness for C8 at the concrete fresh-detector input x = 100. -/
theorem C8_cold_start_witness :
    baselineFor [] "x" 100 = (100, max (1/1000000) (|(100:ℚ)| * (5/100))) ∧
    zscoreOf 100 (baselineFor [] "x" 100).1 (baselineFor [] "x" 100).2 = 0 ∧
    detectOne [] "x" 100 = none ∧
    AnomalyDetector.detect [] [("x", 100)] = [] :=
  C8_cold_start [] "x" 100 rfl

/-- Claim C1 counterexample: with the stored baseline (mean 10, stdev 1) -
the baseline the detector holds after update_baseline over the history
[9, 11] - the reading 12 has z-score exactly 2; the report condition
2 ≤ abs z holds while both strict severity conditions fail, so the anomaly
is emitted with severity "low", not "medium" or "high". -/
theorem C1_counterexample :
    AnomalyDetector.detect [("m", (10, 1))] [("m", 12)] =
      [⟨"m", 12, 10, 2, "low", "above"⟩] ∧
    "low" ≠ "medium" ∧ "low" ≠ "high" := by
  refine ⟨?_, by decide, by decide⟩
  have hb : baselineFor [("m", (10, 1))] "m" 12 = (10, 1) := by
    simp +decide [baselineFor, lookupBaseline]
  have hz : zscoreOf 12 10 1 = 2 := by norm_num [zscoreOf, orDefault]
  simp [AnomalyDetector.detect, detectOne, hb, hz, severityOf]
  norm_num

/-- Claim C1 (corrected): an anomaly is emitted for a metric entry exactly
when 2 ≤ abs z; every emitted anomaly has severity "high" when abs z
exceeds 3 and "medium" when abs z lies strictly between 2 and 3, but at
the boundary abs z = 2 exactly the emitted anomaly has severity "low". -/
theorem C1_thresholds (bs : Baselines) (metrics : List (String × ℚ)) :
    (∀ a ∈ AnomalyDetector.detect bs metrics,
        2 ≤ |a.zscore| ∧
        (3 < |a.zscore| → a.severity = "high") ∧
        (2 < |a.zscore| → |a.zscore| ≤ 3 → a.severity = "medium") ∧
        (|a.zscore| = 2 → a.severity = "low")) ∧
    (∀ p ∈ metrics,
        2 ≤ |zscoreOf p.2 (baselineFor bs p.1 p.2).1 (baselineFor bs p.1 p.2).2| →
        ∃ a ∈ AnomalyDetector.detect bs metrics,
          a.metric = p.1 ∧ a.value = p.2 ∧
          a.zscore = zscoreOf p.2 (baselineFor bs p.1 p.2).1
            (baselineFor bs p.1 p.2).2) := by
  constructor
  · intro a ha
    obtain ⟨p, hp, hsome⟩ := (mem_detect bs metrics a).1 ha
    unfold detectOne at hsome
    by_cases hc :
        2 ≤ |zscoreOf p.2 (baselineFor bs p.1 p.2).1 (baselineFor bs p.1 p.2).2|
    · rw [if_pos hc] at hsome
      obtain rfl := Option.some.inj hsome
      refine ⟨hc, ?_, ?_, ?_⟩
      · intro h1
        simp only [severityOf]
        rw [if_pos h1]
      · intro h1 h2
        simp only [severityOf]
        rw [if_neg (not_lt.mpr h2), if_pos h1]
      · intro h1
        simp only [severityOf] at h1 ⊢
        rw [h1]
        norm_num
    · rw [if_neg hc] at hsome
      exact absurd hsome (by simp)
  · intro p hp hz
    refine ⟨⟨p.1, p.2, (baselineFor bs p.1 p.2).1,
      zscoreOf p.2 (baselineFor bs p.1 p.2).1 (baselineFor bs p.1 p.2).2,
      severityOf (zscoreOf p.2 (baselineFor bs p.1 p.2).1 (baselineFor bs p.1 p.2).2),
      if (baselineFor bs p.1 p.2).1 < p.2 then "above" else "below"⟩,
      (mem_detect bs metrics _).2 ⟨p, hp, ?_⟩, rfl, rfl, rfl⟩
    unfold detectOne
    rw [if_pos hz]

/-- Witness for C1 at the baseline (10, 1) and reading 12. -/
theorem C1_thresholds_witness :
    ∃ a ∈ AnomalyDetector.detect [("m", (10, 1))] [("m", 12)],
      a.metric = "m" ∧ a.value = 12 ∧
      a.zscore = zscoreOf 12 (baselineFor [("m", (10, 1))] "m" 12).1
        (baselineFor [("m", (10, 1))] "m" 12).2 :=
  (C1_thresholds [("m", (10, 1))] [("m", 12)]).2 ("m", 12) (by simp)
    (by
      have hb : baselineFor [("m", (10, 1))] "m" 12 = (10, 1) := by
        simp +decide [baselineFor, lookupBaseline]
      rw [hb]
      norm_num [zscoreOf, orDefault])

/-! Helper lemmas for the strategy selector. -/

/-- Effect of record_outcome on the lookup of the recorded name. -/
theorem lookupScore_record_self (s : Scores) (n : String) (b : Bool) :
    lookupScore (StrategySelector.record_outcome s n b) n =
      match lookupScore s n with
      | none => some ((if b then 1 else 0), 1)
      | some r => some (r.1 + (if b then 1 else 0), r.2 + 1) := by
  induction s with
  | nil => simp [StrategySelector.record_outcome, lookupScore]
  | cons p t ih =>
      by_cases h : p.1 = n
      · subst h
        simp [StrategySelector.record_outcome, lookupScore]
      · simpa [StrategySelector.record_outcome, lookupScore, h] using ih

/-- record_outcome preserves the counter invariant. -/
theorem scoresWF_record (s : Scores) (n : String) (b : Bool)
    (h : scoresWF s) : scoresWF (StrategySelector.record_outcome s n b) := by
  induction s with
  | nil =>
      intro p hp
      simp [StrategySelector.record_outcome] at hp
      rw [hp]
      cases b <;> simp
  | cons q t ih =>
      have hq2 : q.2.1 ≤ q.2.2 := h q (List.mem_cons_self q t)
      have ht : scoresWF t := fun r hr => h r (List.mem_cons_of_mem q hr)
      intro p hp
      by_cases hqn : q.1 = n
      · simp [StrategySelector.record_outcome, hqn] at hp
        rcases hp with hp | hp
        · rw [hp]
          cases b <;> simp <;> omega
        · exact ht p hp
      · simp [StrategySelector.record_outcome, hqn] at hp
        rcases hp with hp | hp
        · rw [hp]; exact hq2
        · exact ih ht p hp

/-- Every selector state reached from the initial empty dict by a history
of record_outcome calls satisfies the counter invariant. -/
theorem scoresWF_runOutcomes (ops : List (String × Bool)) :
    scoresWF (runOutcomes ops) := by
  have gen : ∀ (l : List (String × Bool)) (s : Scores), scoresWF s →
      scoresWF (l.foldl
        (fun s p => StrategySelector.record_outcome s p.1 p.2) s) := by
    intro l
    induction l with
    | nil => intro s hs; exact hs
    | cons q t ih => intro s hs; exact ih _ (scoresWF_record _ _ _ hs)
  exact gen ops [] (by intro p hp; simp at hp)

/-- The running maximum of python max with a key function: either no
element strictly beats the accumulator and the accumulator is returned, or
the result is the first list element strictly beating both the accumulator
and everything before it, and no later element strictly beats it. -/
theorem pickMax_spec (scores : Scores) (l : List String) :
    ∀ (acc m : String), pickMax scores acc l = m →
    (m = acc ∧ ∀ x ∈ l, scoreOf scores x ≤ scoreOf scores acc) ∨
    (∃ l1 l2, l = l1 ++ m :: l2 ∧
      scoreOf scores acc < scoreOf scores m ∧
      (∀ x ∈ l1, scoreOf scores x < scoreOf scores m) ∧
      (∀ x ∈ l2, scoreOf scores x ≤ scoreOf scores m)) := by
  induction l with
  | nil =>
      intro acc m hm
      simp only [pickMax, List.foldl_nil] at hm
      exact Or.inl ⟨hm.symm, by simp⟩
  | cons x xs ih =>
      intro acc m hm
      by_cases hx : scoreOf scores acc < scoreOf scores x
      · have hm2 : pickMax scores x xs = m := by
          rw [← hm]; simp [pickMax, hx]
        rcases ih x m hm2 with ⟨heq, hle⟩ | ⟨l1, l2, hd, hgt, hl1, hl2⟩
        · right
          refine ⟨[], xs, ?_, ?_, by simp, ?_⟩
          · rw [heq]; simp
          · rw [heq]; exact hx
          · intro y hy; rw [heq]; exact hle y hy
        · right
          refine ⟨x :: l1, l2, ?_, lt_trans hx hgt, ?_, hl2⟩
          · rw [hd]; rfl
          · intro y hy
            rcases List.mem_cons.mp hy with hy | hy
            · rw [hy]; exact hgt
            · exact hl1 y hy
      · have hm2 : pickMax scores acc xs = m := by
          rw [← hm]; simp [pickMax, hx]
        rcases ih acc m hm2 with ⟨heq, hle⟩ | ⟨l1, l2, hd, hgt, hl1, hl2⟩
        · left
          refine ⟨heq, ?_⟩
          intro y hy
          rcases List.mem_cons.mp hy with hy | hy
          · rw [hy]; exact not_lt.mp hx
          · exact hle y hy
        · right
          refine ⟨x :: l1, l2, ?_, hgt, ?_, hl2⟩
          · rw [hd]; rfl
          · intro y hy
            rcases List.mem_cons.mp hy with hy | hy
            · rw [hy]; exact lt_of_le_of_lt (not_lt.mp hx) hgt
            · exact hl1 y hy

/-! Claim theorems: strategy selector (C4, C5). -/

/-- Claim C4 (confirmed): best of the empty candidate list is none; best of
a non-empty list returns the first candidate in input order whose score is
maximal, where the score is 0.5 for a name with no record or zero attempts
and successes / attempts otherwise; with no prior outcomes best of a and b
returns a. -/
theorem C4_best (scores : Scores) (cs : List String) (m : String)
    (h : StrategySelector.best scores cs = some m) :
    StrategySelector.best scores [] = none ∧
    StrategySelector.best [] ["a", "b"] = some "a" ∧
    m ∈ cs ∧
    (∀ x ∈ cs, scoreOf scores x ≤ scoreOf scores m) ∧
    (∃ l1 l2, cs = l1 ++ m :: l2 ∧
      ∀ x ∈ l1, scoreOf scores x < scoreOf scores m) ∧
    (lookupScore scores m = none → scoreOf scores m = 1/2) ∧
    (∀ sc a, lookupScore scores m = some (sc, a) →
      scoreOf scores m = if a = 0 then 1/2 else (sc : ℚ) / (a : ℚ)) := by
  have hbase : StrategySelector.best [] ["a", "b"] = some "a" := by
    simp [StrategySelector.best, pickMax, scoreOf, lookupScore]
  cases cs with
  | nil => exact absurd h (by simp [StrategySelector.best])
  | cons c t =>
      have hm : pickMax scores c t = m := Option.some.inj h
      have hmain : m ∈ c :: t ∧
          (∀ x ∈ c :: t, scoreOf scores x ≤ scoreOf scores m) ∧
          ∃ l1 l2, c :: t = l1 ++ m :: l2 ∧
            ∀ x ∈ l1, scoreOf scores x < scoreOf scores m := by
        rcases pickMax_spec scores t c m hm with ⟨heq, hle⟩ | ⟨l1, l2, hd, hgt, hl1, hl2⟩
        · refine ⟨by rw [heq]; exact List.mem_cons_self c t, ?_, [], t,
            by rw [heq]; simp, by simp⟩
          intro x hx
          rcases List.mem_cons.mp hx with hx | hx
          · rw [hx, heq]
          · rw [heq]; exact hle x hx
        · refine ⟨?_, ?_, c :: l1, l2, by rw [hd]; simp, ?_⟩
          · exact List.mem_cons_of_mem c (by rw [hd]; simp)
          · intro x hx
            rcases List.mem_cons.mp hx with hx | hx
            · rw [hx]; exact le_of_lt hgt
            · rw [hd] at hx
              rcases List.mem_append.mp hx with hx | hx
              · exact le_of_lt (hl1 x hx)
              · rcases List.mem_cons.mp hx with hx | hx
                · rw [hx]
                · exact hl2 x hx
          · intro x hx
            rcases List.mem_cons.mp hx with hx | hx
            · rw [hx]; exact hgt
            · exact hl1 x hx
      refine ⟨rfl, hbase, hmain.1, hmain.2.1, hmain.2.2, ?_, ?_⟩
      · intro hnone
        simp [scoreOf, hnone]
      · intro sc a hsome
        by_cases ha : a = 0
        · simp [scoreOf, hsome, ha]
        · have h1 : (1 : ℚ) ≤ (a : ℚ) := by
            exact_mod_cast Nat.one_le_iff_ne_zero.mpr ha
          simp [scoreOf, hsome, ha, max_eq_right h1]

/-- Witness for C4: the tie at score 0.5 between two untried names resolves
to the first. -/
theorem C4_best_witness :
    StrategySelector.best [] [] = none ∧
    StrategySelector.best [] ["a", "b"] = some "a" ∧
    "a" ∈ ["a", "b"] ∧
    (∀ x ∈ ["a", "b"], scoreOf [] x ≤ scoreOf [] "a") ∧
    (∃ l1 l2, ["a", "b"] = l1 ++ "a" :: l2 ∧
      ∀ x ∈ l1, scoreOf [] x < scoreOf [] "a") ∧
    (lookupScore [] "a" = none → scoreOf [] "a" = 1/2) ∧
    (∀ sc a, lookupScore [] "a" = some (sc, a) →
      scoreOf [] "a" = if a = 0 then 1/2 else (sc : ℚ) / (a : ℚ)) :=
  C4_best [] ["a", "b"] "a"
    (by simp [StrategySelector.best, pickMax, scoreOf, lookupScore])

/-- Claim C5 (confirmed): from the initial empty score map every state
reached by record_outcome calls satisfies attempts at least successes (at
least 0 holds because the counters are naturals); record_outcome always
increments attempts by 1, increments successes by 1 only on success, and
auto-creates a fresh record for an unseen name. -/
theorem C5_invariant (ops : List (String × Bool)) (s : Scores) (n : String)
    (b : Bool) :
    scoresWF (runOutcomes ops) ∧
    (lookupScore s n = none →
      lookupScore (StrategySelector.record_outcome s n b) n =
        some ((if b then 1 else 0), 1)) ∧
    (∀ sc a, lookupScore s n = some (sc, a) →
      lookupScore (StrategySelector.record_outcome s n b) n =
        some (sc + (if b then 1 else 0), a + 1)) := by
  refine ⟨scoresWF_runOutcomes ops, ?_, ?_⟩
  · intro h
    rw [lookupScore_record_self, h]
  · intro sc a h
    rw [lookupScore_record_self, h]

/-- Witness for C5 at a one-call history on a fresh name. -/
theorem C5_invariant_witness :
    scoresWF (runOutcomes [("a", true)]) ∧
    (lookupScore [] "a" = none →
      lookupScore (StrategySelector.record_outcome [] "a" true) "a" =
        some ((if true then 1 else 0), 1)) ∧
    (∀ sc a, lookupScore [] "a" = some (sc, a) →
      lookupScore (StrategySelector.record_outcome [] "a" true) "a" =
        some (sc + (if true then 1 else 0), a + 1)) :=
  C5_invariant [("a", true)] [] "a" true

/-! Helper lemmas for diagnose and heal. -/

/-- The metric-indexed dict holds a key exactly when some anomaly in the
list carries that metric name. -/
theorem metricMap_isSome (l : List Anomaly) (k : String) :
    (metricMap l k).isSome = true ↔ ∃ a ∈ l, a.metric = k := by
  simp [metricMap, List.find?_isSome, List.mem_reverse]

/-- A non-empty single-candidate list makes chosenStrategy pick it. -/
theorem chosenStrategy_single (scores : Scores) (n : String) (hn : n ≠ "") :
    chosenStrategy scores [n] = some n := by
  simp [chosenStrategy, StrategySelector.best, pickMax, hn]

/-! Claim theorems: diagnosis engine (C9). -/

/-- Claim C9 (confirmed): whenever the anomaly list contains an error_rate
anomaly together with a cpu_load or memory_usage anomaly, whatever else is
present, rule 1 fires first and diagnose returns the degradation diagnosis
with the context services, the three recommended strategies and confidence
0.75; no later rule can override the match. -/
theorem C9_rule1 (anomalies : List Anomaly) (ctx : Ctx)
    (herr : ∃ a ∈ anomalies, a.metric = "error_rate")
    (hres : (∃ a ∈ anomalies, a.metric = "cpu_load") ∨
            (∃ a ∈ anomalies, a.metric = "memory_usage")) :
    DiagnosisEngine.diagnose anomalies ctx =
      ⟨"degradation", "elevated error rate under resource pressure", 3/4,
       ctx.services,
       ["scale_service", "restart_unhealthy", "throttle_traffic"]⟩ := by
  have he : (metricMap anomalies "error_rate").isSome = true :=
    (metricMap_isSome _ _).2 herr
  have hcm : ((metricMap anomalies "cpu_load").isSome ||
      (metricMap anomalies "memory_usage").isSome) = true := by
    rcases hres with h | h
    · simp [(metricMap_isSome _ _).2 h]
    · simp [(metricMap_isSome _ _).2 h]
  unfold DiagnosisEngine.diagnose
  rw [he, hcm]
  simp

/-- Witness for C9: a three-anomaly list with an unrelated latency anomaly
present besides the error rate and cpu pair. -/
theorem C9_rule1_witness :
    DiagnosisEngine.diagnose
      [⟨"latency_p95", 900, 100, 4, "high", "above"⟩,
       ⟨"error_rate", 3/10, 1/100, 29, "high", "above"⟩,
       ⟨"cpu_load", 95, 40, 11, "high", "above"⟩]
      ⟨["svc-a"], [], [], none⟩ =
      ⟨"degradation", "elevated error rate under resource pressure", 3/4,
       ["svc-a"],
       ["scale_service", "restart_unhealthy", "throttle_traffic"]⟩ :=
  C9_rule1 _ _
    (⟨⟨"error_rate", 3/10, 1/100, 29, "high", "above"⟩, by simp⟩)
    (Or.inl ⟨⟨"cpu_load", 95, 40, 11, "high", "above"⟩, by simp⟩)

/-! Claim theorems: recovery executor (C6, C7). -/

/-- Claim C6 (confirmed): for every catalog strategy and every context, a
dry-run execute returns the not-applied dry-run plan holding the strategy
name and its action list, and no container call is made: the docker code
path is never reached. -/
theorem C6_dry_run (env : DockerEnv) (name : String)
    (strat : HealingStrategy) (ctx : Ctx)
    (h : StrategyLibrary.get name = some strat) :
    RecoveryExecutor.execute env name ctx true =
      (ExecResult.dryRunPlan ⟨strat.name, strat.actions, true⟩, []) ∧
    (ExecResult.dryRunPlan ⟨strat.name, strat.actions, true⟩).applied
      = false := by
  constructor
  · unfold RecoveryExecutor.execute
    rw [h]
    simp
  · rfl

/-- Witness for C6 at the restart_unhealthy catalog entry. -/
theorem C6_dry_run_witness :
    RecoveryExecutor.execute ⟨true, fun _ _ => ([], none)⟩
        "restart_unhealthy" ⟨[], [], ["c1"], none⟩ true =
      (ExecResult.dryRunPlan ⟨"restart_unhealthy",
        [[("type", ActionVal.str "docker.restart"),
          ("target", ActionVal.str "service")]], true⟩, []) ∧
    (ExecResult.dryRunPlan ⟨"restart_unhealthy",
        [[("type", ActionVal.str "docker.restart"),
          ("target", ActionVal.str "service")]], true⟩).applied = false :=
  C6_dry_run ⟨true, fun _ _ => ([], none)⟩ "restart_unhealthy"
    ⟨"restart_unhealthy", "Restart unhealthy containers/services", "high",
      1/5, [[("type", ActionVal.str "docker.restart"),
             ("target", ActionVal.str "service")]]⟩
    ⟨[], [], ["c1"], none⟩ rfl

/-- Claim C7 (confirmed): execute on a name outside the six-entry catalog
returns the not-applied unknown_strategy result whatever the context and
dry-run flag, and a heal whose override is such a name (with the
persistence collaborator not raising) still completes: it returns the
payload embedding the unknown_strategy outcome, records the attempt and
the failed learning outcome, and makes no container call. -/
theorem C7_unknown_strategy (env : DockerEnv) (henv : HealEnv)
    (scores : Scores) (issue : Option Diagnosis) (ctx : Ctx) (dr : Bool)
    (name : String)
    (h : StrategyLibrary.get name = none) (hne : name ≠ "")
    (hp : henv.persistError = none) :
    RecoveryExecutor.execute env name ctx dr =
      (ExecResult.unknownStrategy, []) ∧
    SelfHealingService.heal henv scores issue ctx dr (some name) =
      ⟨Except.ok (HealResult.payload
          ⟨name, ExecResult.unknownStrategy, healDiag issue ctx⟩),
       StrategySelector.record_outcome scores name false,
       [⟨name, dr, false, (healDiag issue ctx).issue_type,
         (healDiag issue ctx).root_cause⟩],
       [],
       [("ops.selfhealing", "heal",
         ⟨name, ExecResult.unknownStrategy, healDiag issue ctx⟩)],
       [("self_healing.heal",
         ⟨name, ExecResult.unknownStrategy, healDiag issue ctx⟩,
         ctx.user)]⟩ := by
  have hexec : ∀ d : DockerEnv, RecoveryExecutor.execute d name ctx dr =
      (ExecResult.unknownStrategy, []) := by
    intro d
    unfold RecoveryExecutor.execute
    rw [h]
  refine ⟨hexec env, ?_⟩
  have hcand : healCandidates (healDiag issue ctx) (some name) = [name] := by
    simp [healCandidates, hne]
  simp [SelfHealingService.heal, hcand, chosenStrategy_single scores name hne,
    hp, hexec henv.docker, LearningEngine.update, ExecResult.applied,
    publish_exchange, audit_event]

/-- Witness for C7 at the name does_not_exist. -/
theorem C7_unknown_strategy_witness :
    RecoveryExecutor.execute ⟨false, fun _ _ => ([], none)⟩
        "does_not_exist" ⟨[], [], [], none⟩ false =
      (ExecResult.unknownStrategy, []) ∧
    SelfHealingService.heal ⟨⟨false, fun _ _ => ([], none)⟩, none⟩
        [] none ⟨[], [], [], none⟩ false (some "does_not_exist") =
      ⟨Except.ok (HealResult.payload
          ⟨"does_not_exist", ExecResult.unknownStrategy,
           healDiag none ⟨[], [], [], none⟩⟩),
       StrategySelector.record_outcome [] "does_not_exist" false,
       [⟨"does_not_exist", false, false,
         (healDiag none ⟨[], [], [], none⟩).issue_type,
         (healDiag none ⟨[], [], [], none⟩).root_cause⟩],
       [],
       [("ops.selfhealing", "heal",
         ⟨"does_not_exist", ExecResult.unknownStrategy,
          healDiag none ⟨[], [], [], none⟩⟩)],
       [("self_healing.heal",
         ⟨"does_not_exist", ExecResult.unknownStrategy,
          healDiag none ⟨[], [], [], none⟩⟩, none)]⟩ :=
  C7_unknown_strategy ⟨false, fun _ _ => ([], none)⟩
    ⟨⟨false, fun _ _ => ([], none)⟩, none⟩ [] none ⟨[], [], [], none⟩ false
    "does_not_exist" (by simp +decide [StrategyLibrary.get, StrategyLibrary.list])
    (by decide) rfl

/-! Claim theorems: heal orchestration (C2, C3, C10). -/

/-- Claim C2 counterexample: a concrete dry-run heal with an override that
is in the catalog, against a persistence collaborator that raises. The
call does not return its payload - the exception propagates - and the
selector state stays empty, although the same call with working
persistence would have recorded the learning outcome. -/
theorem C2_counterexample :
    (SelfHealingService.heal
        ⟨⟨false, fun _ _ => ([], none)⟩, some "neo4j unavailable"⟩
        [] none ⟨[], [], [], none⟩ true (some "restart_unhealthy")).result =
      Except.error "neo4j unavailable" ∧
    (SelfHealingService.heal
        ⟨⟨false, fun _ _ => ([], none)⟩, some "neo4j unavailable"⟩
        [] none ⟨[], [], [], none⟩ true (some "restart_unhealthy")).scores =
      [] ∧
    (SelfHealingService.heal
        ⟨⟨false, fun _ _ => ([], none)⟩, some "neo4j unavailable"⟩
        [] none ⟨[], [], [], none⟩ true (some "restart_unhealthy")).persisted =
      [] ∧
    (SelfHealingService.heal ⟨⟨false, fun _ _ => ([], none)⟩, none⟩
        [] none ⟨[], [], [], none⟩ true (some "restart_unhealthy")).scores =
      [("restart_unhealthy", (0, 1))] := by
  refine ⟨rfl, rfl, rfl, rfl⟩

/-- Claim C2 (corrected): for every heal invocation that reaches execution
(a candidate strategy was chosen), a failure of the persistence
collaborator IS propagated: heal raises the exception instead of returning
its payload, no attempt record results from the call, the learning update
(which follows the write in the code) does not happen, and no event is
published or audited. -/
theorem C2_persistence (env : HealEnv) (scores : Scores)
    (issue : Option Diagnosis) (ctx : Ctx) (dr : Bool)
    (strategy : Option String) (c e : String)
    (hc : chosenStrategy scores
        (healCandidates (healDiag issue ctx) strategy) = some c)
    (hp : env.persistError = some e) :
    SelfHealingService.heal env scores issue ctx dr strategy =
      ⟨Except.error e, scores, [],
       (RecoveryExecutor.execute env.docker c ctx dr).2, [], []⟩ := by
  unfold SelfHealingService.heal
  rw [hc, hp]

/-- Witness for C2 at the counterexample input. -/
theorem C2_persistence_witness :
    SelfHealingService.heal
        ⟨⟨false, fun _ _ => ([], none)⟩, some "neo4j unavailable"⟩
        [] none ⟨[], [], [], none⟩ true (some "restart_unhealthy") =
      ⟨Except.error "neo4j unavailable", [], [],
       (RecoveryExecutor.execute ⟨false, fun _ _ => ([], none)⟩
         "restart_unhealthy" ⟨[], [], [], none⟩ true).2, [], []⟩ :=
  C2_persistence ⟨⟨false, fun _ _ => ([], none)⟩, some "neo4j unavailable"⟩
    [] none ⟨[], [], [], none⟩ true (some "restart_unhealthy")
    "restart_unhealthy" "neo4j unavailable" rfl rfl

/-- Claim C3 (confirmed): a heal with no override whose diagnosis (present
or synthesized) recommends no strategies returns the no_strategy result
directly: the selector state is unchanged, no attempt record is created,
and no event is emitted; the diagnosis synthesized for an issue without
one is the unknown diagnosis with the empty strategy list. -/
theorem C3_no_strategy (env : HealEnv) (scores : Scores)
    (issue : Option Diagnosis) (ctx : Ctx) (dr : Bool)
    (h : (healDiag issue ctx).recommended_strategies = []) :
    SelfHealingService.heal env scores issue ctx dr none =
      ⟨Except.ok HealResult.noStrategy, scores, [], [], [], []⟩ ∧
    healDiag none ctx = ⟨"unknown", "insufficient data", 1/2, [], []⟩ := by
  constructor
  · have hcand : healCandidates (healDiag issue ctx) none = [] := h
    have hchos : chosenStrategy scores [] = none := rfl
    unfold SelfHealingService.heal
    rw [hcand, hchos]
  · rfl

/-- Witness for C3 at a diagnosis-free issue. -/
theorem C3_no_strategy_witness :
    SelfHealingService.heal ⟨⟨false, fun _ _ => ([], none)⟩, none⟩
        [("x", (1, 2))] none ⟨["svc-a"], [], [], none⟩ true none =
      ⟨Except.ok HealResult.noStrategy, [("x", (1, 2))], [], [], [], []⟩ ∧
    healDiag none ⟨["svc-a"], [], [], none⟩ =
      ⟨"unknown", "insufficient data", 1/2, [], []⟩ :=
  C3_no_strategy ⟨⟨false, fun _ _ => ([], none)⟩, none⟩ [("x", (1, 2))]
    none ⟨["svc-a"], [], [], none⟩ true rfl

/-! Helper lemmas for the dry-run learning claim. -/

/-- A stored counter pair satisfies the invariant when the whole state
does. -/
theorem lookupScore_le (s : Scores) (n : String) (r : ℕ × ℕ)
    (hwf : scoresWF s) (h : lookupScore s n = some r) : r.1 ≤ r.2 := by
  unfold lookupScore at h
  rcases Option.map_eq_some'.mp h with ⟨p, hfind, hr⟩
  have hmem : p ∈ s := List.mem_of_find?_eq_some hfind
  rw [← hr]
  exact hwf p hmem

/-- A dry-run heal on a catalog strategy override updates the selector
state exactly by a failed record_outcome on that name. -/
theorem heal_dry_scores (env : HealEnv) (ctx : Ctx) (name : String)
    (strat : HealingStrategy)
    (h : StrategyLibrary.get name = some strat) (hne : name ≠ "")
    (hp : env.persistError = none) (scores : Scores)
    (issue : Option Diagnosis) :
    (SelfHealingService.heal env scores issue ctx true (some name)).scores =
      StrategySelector.record_outcome scores name false := by
  have hcand : healCandidates (healDiag issue ctx) (some name) = [name] := by
    simp [healCandidates, hne]
  have hexec : RecoveryExecutor.execute env.docker name ctx true =
      (ExecResult.dryRunPlan ⟨strat.name, strat.actions, true⟩, []) := by
    unfold RecoveryExecutor.execute
    rw [h]
    simp
  simp [SelfHealingService.heal, hcand, chosenStrategy_single scores name hne,
    hp, hexec, LearningEngine.update, ExecResult.applied]

/-- Running k further dry-run heal calls adds k failed attempts to the
name's counters. -/
theorem iterate_dry_lookup (env : HealEnv) (ctx : Ctx) (name : String)
    (strat : HealingStrategy)
    (h : StrategyLibrary.get name = some strat) (hne : name ≠ "")
    (hp : env.persistError = none) :
    ∀ (k j : ℕ) (scores : Scores), lookupScore scores name = some (0, j) →
      lookupScore (iterateDryHeal env k scores name ctx) name =
        some (0, j + k) := by
  intro k
  induction k with
  | zero =>
      intro j scores hs
      simpa [iterateDryHeal] using hs
  | succ k ih =>
      intro j scores hs
      have hstep : iterateDryHeal env (k+1) scores name ctx =
          iterateDryHeal env k
            (StrategySelector.record_outcome scores name false) name ctx := by
        have hx : iterateDryHeal env (k+1) scores name ctx =
            iterateDryHeal env k
              (SelfHealingService.heal env scores none ctx true
                (some name)).scores name ctx := rfl
        rw [hx, heal_dry_scores env ctx name strat h hne hp scores none]
      have hrec : lookupScore
          (StrategySelector.record_outcome scores name false) name =
          some (0, j + 1) := by
        rw [lookupScore_record_self, hs]
        simp
      have hj : j + 1 + k = j + (k + 1) := by omega
      rw [hstep, ih (j + 1) _ hrec, hj]

/-! Claim theorem: dry-run heal is learned as failure (C10). -/

/-- Claim C10 (confirmed): a dry-run heal that reaches execution of a
catalog strategy returns the not-applied dry-run plan and is recorded in
the learning state as a failed outcome: the chosen name's attempts counter
is incremented while successes is not; under the counter invariant the
success-rate score never rises from such a call, and from a fresh selector
k repeated dry runs leave the score at 0, strictly below the 0.5 untried
default. -/
theorem C10_dry_run_learning (env : HealEnv) (ctx : Ctx) (name : String)
    (strat : HealingStrategy)
    (h : StrategyLibrary.get name = some strat) (hne : name ≠ "")
    (hp : env.persistError = none) :
    (∀ (scores : Scores) (issue : Option Diagnosis),
      (SelfHealingService.heal env scores issue ctx true (some name)).scores =
        StrategySelector.record_outcome scores name false) ∧
    (∀ (scores : Scores) (issue : Option Diagnosis),
      (SelfHealingService.heal env scores issue ctx true (some name)).result =
        Except.ok (HealResult.payload ⟨name,
          ExecResult.dryRunPlan ⟨strat.name, strat.actions, true⟩,
          healDiag issue ctx⟩)) ∧
    (∀ (scores : Scores) (sc a : ℕ), lookupScore scores name = some (sc, a) →
      lookupScore (StrategySelector.record_outcome scores name false) name =
        some (sc, a + 1)) ∧
    (∀ scores : Scores, lookupScore scores name = none →
      lookupScore (StrategySelector.record_outcome scores name false) name =
        some (0, 1)) ∧
    (∀ scores : Scores, scoresWF scores →
      scoreOf (StrategySelector.record_outcome scores name false) name ≤
        scoreOf scores name) ∧
    (∀ k : ℕ, 1 ≤ k →
      lookupScore (iterateDryHeal env k [] name ctx) name = some (0, k) ∧
      scoreOf (iterateDryHeal env k [] name ctx) name = 0 ∧
      (0 : ℚ) < 1/2) := by
  have hcand : ∀ issue : Option Diagnosis,
      healCandidates (healDiag issue ctx) (some name) = [name] := by
    intro issue
    simp [healCandidates, hne]
  have hexec : RecoveryExecutor.execute env.docker name ctx true =
      (ExecResult.dryRunPlan ⟨strat.name, strat.actions, true⟩, []) := by
    unfold RecoveryExecutor.execute
    rw [h]
    simp
  refine ⟨heal_dry_scores env ctx name strat h hne hp, ?_, ?_, ?_, ?_, ?_⟩
  · intro scores issue
    simp [SelfHealingService.heal, hcand issue,
      chosenStrategy_single scores name hne, hp, hexec]
  · intro scores sc a hs
    rw [lookupScore_record_self, hs]
    simp
  · intro scores hs
    rw [lookupScore_record_self, hs]
    simp
  · intro scores hwf
    rcases hlk : lookupScore scores name with _ | r
    · have h1 : scoreOf (StrategySelector.record_outcome scores name false)
          name = 0 := by
        simp [scoreOf, lookupScore_record_self, hlk]
      have h2 : scoreOf scores name = 1/2 := by simp [scoreOf, hlk]
      rw [h1, h2]
      norm_num
    · obtain ⟨sc, a⟩ := r
      have hle : sc ≤ a := lookupScore_le scores name (sc, a) hwf hlk
      have hnew : lookupScore
          (StrategySelector.record_outcome scores name false) name =
          some (sc, a + 1) := by
        rw [lookupScore_record_self, hlk]
        simp
      by_cases ha : a = 0
      · subst ha
        have hsc : sc = 0 := Nat.le_zero.mp hle
        subst hsc
        have h1 : scoreOf (StrategySelector.record_outcome scores name false)
            name = 0 := by
          simp [scoreOf, hnew]
        have h2 : scoreOf scores name = 1/2 := by simp [scoreOf, hlk]
        rw [h1, h2]
        norm_num
      · have hap : (0 : ℚ) < (a : ℚ) := by
          exact_mod_cast Nat.pos_of_ne_zero ha
        have ha1 : (1 : ℚ) ≤ (a : ℚ) := by
          exact_mod_cast Nat.one_le_iff_ne_zero.mpr ha
        have ha1s : (1 : ℚ) ≤ ((a + 1 : ℕ) : ℚ) := by
          exact_mod_cast Nat.succ_le_succ (Nat.zero_le a)
        have h1 : scoreOf (StrategySelector.record_outcome scores name false)
            name = (sc : ℚ) / ((a + 1 : ℕ) : ℚ) := by
          simp [scoreOf, hnew, max_eq_right ha1s]
        have h2 : scoreOf scores name = (sc : ℚ) / (a : ℚ) := by
          simp [scoreOf, hlk, ha, max_eq_right ha1]
        rw [h1, h2, div_le_div_iff₀ (by positivity) hap]
        push_cast
        nlinarith [Nat.cast_nonneg (α := ℚ) sc]
  · intro k hk
    obtain ⟨j, rfl⟩ : ∃ j, k = j + 1 := ⟨k - 1, by omega⟩
    have hstep : iterateDryHeal env (j+1) [] name ctx =
        iterateDryHeal env j
          (StrategySelector.record_outcome [] name false) name ctx := by
      have hx : iterateDryHeal env (j+1) [] name ctx =
          iterateDryHeal env j
            (SelfHealingService.heal env [] none ctx true
              (some name)).scores name ctx := rfl
      rw [hx, heal_dry_scores env ctx name strat h hne hp [] none]
    have hrec : lookupScore
        (StrategySelector.record_outcome [] name false) name =
        some (0, 1) := by
      rw [lookupScore_record_self]
      simp [lookupScore]
    have hlook := iterate_dry_lookup env ctx name strat h hne hp j 1 _ hrec
    have hcount : lookupScore (iterateDryHeal env (j+1) [] name ctx) name =
        some (0, j + 1) := by
      rw [hstep, hlook, Nat.add_comm 1 j]
    refine ⟨hcount, ?_, by norm_num⟩
    simp [scoreOf, hcount]

/-- Witness for C10: two dry runs of restart_unhealthy from a fresh
selector leave its score at 0. -/
theorem C10_dry_run_learning_witness :
    lookupScore (iterateDryHeal ⟨⟨false, fun _ _ => ([], none)⟩, none⟩ 2 []
      "restart_unhealthy" ⟨[], [], [], none⟩) "restart_unhealthy" =
      some (0, 2) ∧
    scoreOf (iterateDryHeal ⟨⟨false, fun _ _ => ([], none)⟩, none⟩ 2 []
      "restart_unhealthy" ⟨[], [], [], none⟩) "restart_unhealthy" = 0 ∧
    (0 : ℚ) < 1/2 :=
  (C10_dry_run_learning ⟨⟨false, fun _ _ => ([], none)⟩, none⟩
    ⟨[], [], [], none⟩ "restart_unhealthy"
    ⟨"restart_unhealthy", "Restart unhealthy containers/services", "high",
      1/5, [[("type", ActionVal.str "docker.restart"),
             ("target", ActionVal.str "service")]]⟩
    rfl (by decide) rfl).2.2.2.2.2 2 (by norm_num)
